import Mathlib

/-!
Shallow embedding of `src/GxpFruDevice.cpp` (HewlettPackard/openbmc-gxp-fru-device).

The program reads manufacturing identity fields at fixed offsets from the first
openable EEPROM image among three candidate sysfs paths and publishes them as a
D-Bus object; a manager object exposes a `ReScan` method that removes the
published object and recreates it.

Modelling choices, each tied to the C++ source:
* An `std::ifstream` is modelled by `IfStream`: the bytes of the underlying
  file, the read position, and a single error flag.  `GetStr` tests `!fin`
  (i.e. `fail()`); a short `read` sets both `eofbit` and `failbit`, and
  `seekg` only clears `eofbit`, so across the calls made by this program one
  boolean (`failed`) captures the stream state exactly.
* Bytes are `Nat` values; the file contents of a real EEPROM satisfy
  `b < 256`, which appears as a hypothesis where the formatting depends on it.
  `char` is unsigned on the ARM target of this OpenBMC daemon, so
  `static_cast<int>(v[i])` yields the byte value 0..255.
* `std::vector<char> v(size)` value-initialises to zero, and
  `istream::read` on a short read writes only the bytes it obtained, so a
  short read yields the available bytes padded with NUL bytes.
* Seeking past end-of-file on a regular file succeeds; the following `read`
  then transfers `max(0, length - offset)` bytes, which is Nat subtraction.
* The D-Bus object server is modelled as a list of `DbusObject`s;
  `add_interface`/`register_property`/`register_method` build one object,
  `remove_interface` erases it from the list.
-/

/-- The C++ constant `unknown`: `const std::string unknown("Unknown");`. -/
def unknown : String := "Unknown"

/-- The C++ constant `eeprom` (unused by the scan loop itself). -/
def eeprom : String := "/sys/bus/i2c/devices/2-0050/eeprom"

/-- The candidate EEPROM paths of `const std::array<std::string, 3> eeproms`, in priority order. -/
def eeproms : List String :=
  ["/sys/bus/i2c/devices/2-0055/eeprom",
   "/sys/bus/i2c/devices/2-0054/eeprom",
   "/sys/bus/i2c/devices/2-0050/eeprom"]

def SerialNumberOffset : Nat := 1
def SerialNumberSize : Nat := 16
def PartNumberOffset : Nat := 109
def PartNumberSize : Nat := 16
def PcaSerialNumberOffset : Nat := 144
def PcaSerialNumberSize : Nat := 16
def PcaPartNumberOffset : Nat := 160
def PcaPartNumberSize : Nat := 16
def MAC0AddressOffset : Nat := 132
def MAC1AddressOffset : Nat := 138
def MACAddressSize : Nat := 6

/-- An open `std::ifstream` over a regular file: the file bytes, the get
position, and the error state (`fail()`); see the modelling notes above. -/
structure IfStream where
  data : List Nat
  pos : Nat
  failed : Bool
deriving DecidableEq, Repr

/-- Embeds `GetServerId`: opens `/sys/class/soc/xreg/server_id`; returns `unknown`
when the open fails, otherwise the result of one `getline` (the first line
without its newline; an empty `id` when `getline` extracts nothing).
The file is modelled as `none` (open failure) or `some lines`. -/
def GetServerId (file : Option (List String)) : String :=
  match file with
  | none => unknown
  | some [] => ""
  | some (l :: _) => l

/-- Embeds `GetManufactuer` (sic): a constant string. -/
def GetManufactuer : String := "Hewlett Packard Enterprise"

/-- Embeds `GetStr(fin, offset, size)`: on a failed stream return `unknown`;
otherwise zero-initialise a `size`-byte buffer, seek to `offset`, read up to
`size` bytes (a short read keeps the zero tail and sets the error state), and
return all `size` buffer bytes as a string. -/
def GetStr (fin : IfStream) (offset size : Nat) : String × IfStream :=
  if fin.failed then
    (unknown, fin)
  else
    let avail := fin.data.length - offset
    let got := min size avail
    let bytes := (fin.data.drop offset).take got ++ List.replicate (size - got) 0
    let s := String.mk (bytes.map Char.ofNat)
    if got < size then
      (s, ⟨fin.data, fin.data.length, true⟩)
    else
      (s, ⟨fin.data, offset + size, false⟩)

/-- Two lowercase hexadecimal digits of a byte value, as printed by
`ss << setbase(16) << setfill('0') << setw(2) << (int)b`: the hex digits of
the value, left-padded with `'0'` to width 2. -/
def hex2 (n : Nat) : String :=
  let ds := Nat.toDigits 16 n
  String.mk (List.replicate (2 - ds.length) '0' ++ ds)

/-- The `stringstream` loop of `GetMACAddress`: first byte, then `":"` and
each further byte, each rendered by `hex2`. -/
def macFormat : List Nat → String
  | [] => ""
  | b :: bs => bs.foldl (fun acc c => acc ++ ":" ++ hex2 c) (hex2 b)

/-- Embeds `GetMACAddress(fin, offset)`: a 6-byte zero-initialised buffer, filled
from the stream only when it is not failed (a short read keeps the zero tail
and sets the error state); the buffer is always formatted. -/
def GetMACAddress (fin : IfStream) (offset : Nat) : String × IfStream :=
  if fin.failed then
    (macFormat (List.replicate MACAddressSize 0), fin)
  else
    let avail := fin.data.length - offset
    let got := min MACAddressSize avail
    let bytes := (fin.data.drop offset).take got ++ List.replicate (MACAddressSize - got) 0
    if got < MACAddressSize then
      (macFormat bytes, ⟨fin.data, fin.data.length, true⟩)
    else
      (macFormat bytes, ⟨fin.data, offset + MACAddressSize, false⟩)

/-- The six `register_property` calls in the loop body of
`AddFRUObjectToDbus`, in source order, threading the stream state. -/
def decodeFields (data : List Nat) : List (String × String) :=
  let fin0 : IfStream := ⟨data, 0, false⟩
  let r1 := GetStr fin0 PartNumberOffset PartNumberSize
  let r2 := GetStr r1.2 SerialNumberOffset SerialNumberSize
  let r3 := GetStr r2.2 PcaPartNumberOffset PcaPartNumberSize
  let r4 := GetStr r3.2 PcaSerialNumberOffset PcaSerialNumberSize
  let r5 := GetMACAddress r4.2 MAC0AddressOffset
  let r6 := GetMACAddress r5.2 MAC1AddressOffset
  [("PRODUCT_PART_NUMBER", r1.1),
   ("PRODUCT_SERIAL_NUMBER", r2.1),
   ("PCA_PART_NUMBER", r3.1),
   ("PCA_SERIAL_NUMBER", r4.1),
   ("MAC0", r5.1),
   ("MAC1", r6.1)]

/-- A D-Bus interface object as built by `object_server::add_interface`
followed by `register_property` / `register_method` calls. -/
structure DbusObject where
  path : String
  interface : String
  props : List (String × String)
  methods : List String
deriving DecidableEq, Repr

def fruPath : String := "/xyz/openbmc_project/FruDevice/HPE"
def fruInterface : String := "xyz.openbmc_project.FruDevice"
def managerPath : String := "/xyz/openbmc_project/FruDevice"

/-- The `for(std::string eeprom: eeproms)` loop: open candidates in order and
use the first whose open succeeds.  `openf` maps a path to its file bytes, or
`none` when the open fails (a later `open` on the same stream clears the
earlier failure). -/
def firstOpenable (openf : String → Option (List Nat)) : List String → Option (List Nat)
  | [] => none
  | p :: ps =>
    match openf p with
    | some d => some d
    | none => firstOpenable openf ps

/-- Embeds `AddFRUObjectToDbus`: create the FRU interface object, register
`SERVER_ID` and `PRODUCT_MANUFACTURER`, then — only when some candidate
EEPROM opens — the six EEPROM-derived properties, and initialize it.
`sid` models the server-id file, `openf` the EEPROM opens. -/
def AddFRUObjectToDbus (sid : Option (List String))
    (openf : String → Option (List Nat)) : DbusObject :=
  { path := fruPath
    interface := fruInterface
    props :=
      [("SERVER_ID", GetServerId sid),
       ("PRODUCT_MANUFACTURER", GetManufactuer)] ++
      (match firstOpenable openf eeproms with
       | none => []
       | some data => decodeFields data)
    methods := [] }

/-- The state of the object server between the `remove_interface` and the
`AddFRUObjectToDbus` call inside `rescanBus`. -/
def rescanMid (bus : List DbusObject) (iface : Option DbusObject) : List DbusObject :=
  match iface with
  | some o => bus.erase o
  | none => bus

/-- Embeds `rescanBus`: if an interface is published, remove it; then publish a
fresh FRU object.  Returns the new object server state and the new object
(the value stored back into the caller's `iface` reference). -/
def rescanBus (bus : List DbusObject) (iface : Option DbusObject)
    (sid : Option (List String)) (openf : String → Option (List Nat)) :
    List DbusObject × DbusObject :=
  let bus1 := rescanMid bus iface
  let o := AddFRUObjectToDbus sid openf
  (bus1 ++ [o], o)

/-- The FruDeviceManager object built in `main`: fixed path and interface,
one registered method `ReScan`, no properties. -/
def managerObj : DbusObject :=
  { path := managerPath
    interface := "xyz.openbmc_project.FruDeviceManager"
    props := []
    methods := ["ReScan"] }

/-- The object-server state and published FRU reference after `main` has
created the manager object and `n` invocations of `rescanBus` have run (the
startup scan is invocation 1; each later one is a `ReScan` call).  The
environment may change between invocations: `sids n` and `openfs n` are the
file contents seen by invocation `n`. -/
def afterRescans (sids : Nat → Option (List String))
    (openfs : Nat → String → Option (List Nat)) :
    Nat → List DbusObject × Option DbusObject
  | 0 => ([managerObj], none)
  | n + 1 =>
    let s := afterRescans sids openfs n
    let r := rescanBus s.1 s.2 (sids n) (openfs n)
    (r.1, some r.2)

/-- Spec-side description of a field: the verbatim bytes of the layout-table
range `[offset, offset+size)`, for comparison with what the code extracts. -/
def fieldBytes (data : List Nat) (offset size : Nat) : List Nat :=
  (data.drop offset).take size

/-- Spec-side description of a raw-ASCII field: `fieldBytes` as a string. -/
def fieldStr (data : List Nat) (offset size : Nat) : String :=
  String.mk ((fieldBytes data offset size).map Char.ofNat)

/-- The sixteen lowercase hexadecimal digit characters, 0-9 then a-f. -/
def lowerHexDigits : List Char :=
  (List.range 16).map Nat.digitChar

/-- How many objects the object server holds at the FRU device path. -/
def countFru (bus : List DbusObject) : Nat :=
  (bus.filter (fun o => o.path == fruPath)).length

set_option maxRecDepth 10000

/-! ### Helper lemmas -/

theorem GetStr_failed (fin : IfStream) (off sz : Nat) (h : fin.failed = true) :
    GetStr fin off sz = (unknown, fin) := by
  simp [GetStr, h]

theorem GetStr_ok (data : List Nat) (p off sz : Nat) (h : off + sz ≤ data.length) :
    GetStr ⟨data, p, false⟩ off sz = (fieldStr data off sz, ⟨data, off + sz, false⟩) := by
  have hg : min sz (data.length - off) = sz := by omega
  simp [GetStr, fieldStr, fieldBytes, hg]

theorem GetStr_fst (fin : IfStream) (off sz : Nat) (h : fin.failed = false) :
    (GetStr fin off sz).1 =
      String.mk ((((fin.data.drop off).take (min sz (fin.data.length - off))) ++
        List.replicate (sz - min sz (fin.data.length - off)) 0).map Char.ofNat) := by
  simp only [GetStr, h]
  split
  · simp_all
  · split <;> rfl

theorem GetStr_val (fin : IfStream) (off sz : Nat) :
    (GetStr fin off sz).1 = unknown ∨ ((GetStr fin off sz).1).length = sz := by
  by_cases h : fin.failed = true
  · left
    simp [GetStr, h]
  · right
    rw [GetStr_fst fin off sz (by simpa using h)]
    show (List.map Char.ofNat _).length = sz
    simp only [List.length_map, List.length_append, List.length_take, List.length_drop,
      List.length_replicate]
    omega

theorem macFormat_zero : macFormat (List.replicate MACAddressSize 0) = "00:00:00:00:00:00" := by
  decide

theorem hex2_length : ∀ b < 256, (hex2 b).length = 2 := by decide

theorem hex2_lower : ∀ b < 256, (hex2 b).data.all (fun c => c ∈ lowerHexDigits) := by decide

theorem macFormat_six (b0 b1 b2 b3 b4 b5 : Nat) :
    macFormat [b0, b1, b2, b3, b4, b5] =
      hex2 b0 ++ ":" ++ hex2 b1 ++ ":" ++ hex2 b2 ++ ":" ++ hex2 b3 ++ ":" ++
        hex2 b4 ++ ":" ++ hex2 b5 := by
  simp [macFormat, String.append_assoc]

theorem macFormat_length (v : List Nat) (hlen : v.length = 6) (hb : ∀ b ∈ v, b < 256) :
    (macFormat v).length = 17 := by
  rcases v with _ | ⟨b0, _ | ⟨b1, _ | ⟨b2, _ | ⟨b3, _ | ⟨b4, _ | ⟨b5, _ | ⟨b6, t⟩⟩⟩⟩⟩⟩⟩ <;>
    simp_all
  rw [macFormat_six]
  have h0 := hex2_length b0 hb.1
  have h1 := hex2_length b1 hb.2.1
  have h2 := hex2_length b2 hb.2.2.1
  have h3 := hex2_length b3 hb.2.2.2.1
  have h4 := hex2_length b4 hb.2.2.2.2.1
  have h5 := hex2_length b5 hb.2.2.2.2.2
  have hc : (":" : String).length = 1 := rfl
  simp only [String.length_append, h0, h1, h2, h3, h4, h5, hc]

theorem GetMACAddress_failed (fin : IfStream) (off : Nat) (h : fin.failed = true) :
    GetMACAddress fin off = ("00:00:00:00:00:00", fin) := by
  simp [GetMACAddress, h, macFormat_zero]

theorem GetMACAddress_ok (data : List Nat) (p off : Nat) (h : off + 6 ≤ data.length) :
    GetMACAddress ⟨data, p, false⟩ off =
      (macFormat (fieldBytes data off 6), ⟨data, off + 6, false⟩) := by
  have hg : min 6 (data.length - off) = 6 := by omega
  simp [GetMACAddress, MACAddressSize, fieldBytes, hg]

theorem GetMACAddress_val (fin : IfStream) (off : Nat) (hb : ∀ b ∈ fin.data, b < 256) :
    ((GetMACAddress fin off).1).length = 17 := by
  by_cases h : fin.failed = true
  · rw [GetMACAddress_failed fin off h]
    show ("00:00:00:00:00:00" : String).length = 17
    decide
  · have hfst : (GetMACAddress fin off).1 =
        macFormat ((fin.data.drop off).take (min MACAddressSize (fin.data.length - off)) ++
          List.replicate (MACAddressSize - min MACAddressSize (fin.data.length - off)) 0) := by
      simp only [GetMACAddress, Bool.not_eq_true] at h ⊢
      simp only [h]
      split
      · simp_all
      · split <;> rfl
    rw [hfst]
    apply macFormat_length
    · simp only [List.length_append, List.length_take, List.length_drop, List.length_replicate,
        MACAddressSize]
      omega
    · intro b hbmem
      rcases List.mem_append.1 hbmem with hl | hr
      · exact hb b (List.mem_of_mem_drop (List.mem_of_mem_take hl))
      · have := List.eq_of_mem_replicate hr
        omega

theorem filter_erase_not {α : Type} [DecidableEq α] (p : α → Bool) (a : α) (h : p a = false)
    (l : List α) : (l.erase a).filter p = l.filter p := by
  induction l with
  | nil => rfl
  | cons b t ih =>
    rw [List.erase_cons]
    by_cases hb : b = a
    · subst hb
      simp [List.filter_cons, h]
    · by_cases hp : p b <;> simp [hb, List.filter_cons, hp, ih]

theorem filter_length_erase {α : Type} [DecidableEq α] (p : α → Bool) (a : α) (h : p a = true) :
    ∀ l : List α, a ∈ l → ((l.erase a).filter p).length = (l.filter p).length - 1 := by
  intro l
  induction l with
  | nil => intro hmem; cases hmem
  | cons b t ih =>
    intro hmem
    rw [List.erase_cons]
    by_cases hb : b = a
    · subst hb
      simp [List.filter_cons, h]
    · have hat : a ∈ t := by
        rcases List.mem_cons.1 hmem with h1 | h1
        · exact absurd h1.symm hb
        · exact h1
      have hpos : 0 < (t.filter p).length := by
        have : a ∈ t.filter p := List.mem_filter.2 ⟨hat, h⟩
        exact List.length_pos.2 (List.ne_nil_of_mem this)
      by_cases hp : p b <;> simp [hb, List.filter_cons, hp, ih hat] <;> omega

theorem GetStr_snd_data (fin : IfStream) (off sz : Nat) :
    ((GetStr fin off sz).2).data = fin.data := by
  simp only [GetStr]
  split
  · rfl
  · split <;> rfl

theorem GetMACAddress_snd_data (fin : IfStream) (off : Nat) :
    ((GetMACAddress fin off).2).data = fin.data := by
  simp only [GetMACAddress]
  split
  · rfl
  · split <;> rfl

theorem afterRescans_path (sids : Nat → Option (List String))
    (openfs : Nat → String → Option (List Nat)) :
    ∀ n o, (afterRescans sids openfs n).2 = some o → o.path = fruPath := by
  intro n o h
  cases n with
  | zero => simp [afterRescans] at h
  | succ k =>
    simp only [afterRescans, rescanBus] at h
    rw [Option.some_inj] at h
    rw [← h]
    rfl

/-! ### Claim theorems -/

/-- C4: for every 6-byte MAC field value, `GetMACAddress`'s formatter renders
each byte as exactly two hexadecimal digits (lowercase throughout) joined by
single colons, yielding a 17-character string; in particular the bytes
{0x00, 0x1a, 0x2b, 0x3c, 0x4d, 0x5e} render as "00:1a:2b:3c:4d:5e". -/
theorem C4_mac_two_hex_digits (b0 b1 b2 b3 b4 b5 : Nat)
    (h0 : b0 < 256) (h1 : b1 < 256) (h2 : b2 < 256)
    (h3 : b3 < 256) (h4 : b4 < 256) (h5 : b5 < 256) :
    macFormat [b0, b1, b2, b3, b4, b5] =
        hex2 b0 ++ ":" ++ hex2 b1 ++ ":" ++ hex2 b2 ++ ":" ++ hex2 b3 ++ ":" ++
          hex2 b4 ++ ":" ++ hex2 b5
    ∧ (∀ b < 256, (hex2 b).length = 2 ∧ (hex2 b).data.all (fun c => c ∈ lowerHexDigits))
    ∧ (macFormat [b0, b1, b2, b3, b4, b5]).length = 17
    ∧ macFormat [0x00, 0x1a, 0x2b, 0x3c, 0x4d, 0x5e] = "00:1a:2b:3c:4d:5e" := by
  refine ⟨macFormat_six b0 b1 b2 b3 b4 b5, ?_, ?_, by decide⟩
  · intro b hb
    exact ⟨hex2_length b hb, hex2_lower b hb⟩
  · apply macFormat_length
    · rfl
    · intro b hb
      simp only [List.mem_cons, List.not_mem_nil, or_false] at hb
      rcases hb with rfl | rfl | rfl | rfl | rfl | rfl <;> assumption

/-- Witness for C4 at the spec's example bytes {0x00,0x1a,0x2b,0x3c,0x4d,0x5e}. -/
theorem C4_mac_two_hex_digits_witness :
    macFormat [0, 26, 43, 60, 77, 94] =
        hex2 0 ++ ":" ++ hex2 26 ++ ":" ++ hex2 43 ++ ":" ++ hex2 60 ++ ":" ++
          hex2 77 ++ ":" ++ hex2 94
    ∧ (∀ b < 256, (hex2 b).length = 2 ∧ (hex2 b).data.all (fun c => c ∈ lowerHexDigits))
    ∧ (macFormat [0, 26, 43, 60, 77, 94]).length = 17
    ∧ macFormat [0x00, 0x1a, 0x2b, 0x3c, 0x4d, 0x5e] = "00:1a:2b:3c:4d:5e" :=
  C4_mac_two_hex_digits 0 26 43 60 77 94 (by decide) (by decide) (by decide)
    (by decide) (by decide) (by decide)

/-- C6 counterexample: a server-id file that opens successfully but whose
read fails (an empty file) yields the empty string, not the sentinel
"Unknown"; so "on any failure to open or to read the result is Unknown" is
false as stated. -/
theorem C6_counterexample :
    GetServerId (some []) = "" ∧ GetServerId (some []) ≠ unknown := by
  exact ⟨rfl, by decide⟩

/-- C6 amended: server identifier resolution reads a single line from the
fixed identity file path; on failure to OPEN the result is "Unknown"; on a
successful open whose read fails (empty file) the result is the empty string;
for a readable file whose first line is "SN123" the result is "SN123" with no
trailing newline. -/
theorem C6_server_id_amended :
    GetServerId none = unknown
    ∧ GetServerId (some []) = ""
    ∧ (∀ (l : String) (ls : List String), GetServerId (some (l :: ls)) = l)
    ∧ GetServerId (some ["SN123"]) = "SN123" :=
  ⟨rfl, rfl, fun _ _ => rfl, rfl⟩

/-- C2 counterexample: with zero openable candidates the published object
carries only SERVER_ID and PRODUCT_MANUFACTURER; the six EEPROM-derived
properties are never registered, so PRODUCT_PART_NUMBER is absent rather than
the sentinel "Unknown". -/
theorem C2_counterexample :
    (AddFRUObjectToDbus (some ["SN123"]) (fun _ => none)).props =
      [("SERVER_ID", "SN123"), ("PRODUCT_MANUFACTURER", "Hewlett Packard Enterprise")]
    ∧ List.lookup "PRODUCT_PART_NUMBER"
        (AddFRUObjectToDbus (some ["SN123"]) (fun _ => none)).props ≠ some unknown := by
  exact ⟨rfl, by decide⟩

/-- C2 amended: if no candidate EEPROM source opens, `AddFRUObjectToDbus`
still publishes the FRU object at the fixed path and interface with
SERVER_ID and PRODUCT_MANUFACTURER, but the six EEPROM-derived properties are
not registered at all (they are absent from the object, not "Unknown"). -/
theorem C2_no_eeprom_amended (sid : Option (List String))
    (openf : String → Option (List Nat)) (h : ∀ p ∈ eeproms, openf p = none) :
    AddFRUObjectToDbus sid openf =
      ⟨fruPath, fruInterface,
       [("SERVER_ID", GetServerId sid), ("PRODUCT_MANUFACTURER", GetManufactuer)], []⟩ := by
  have h1 : openf "/sys/bus/i2c/devices/2-0055/eeprom" = none := h _ (by simp [eeproms])
  have h2 : openf "/sys/bus/i2c/devices/2-0054/eeprom" = none := h _ (by simp [eeproms])
  have h3 : openf "/sys/bus/i2c/devices/2-0050/eeprom" = none := h _ (by simp [eeproms])
  simp [AddFRUObjectToDbus, firstOpenable, eeproms, h1, h2, h3]

/-- Witness for C2 amended: all three candidate opens fail. -/
theorem C2_no_eeprom_amended_witness :
    AddFRUObjectToDbus none (fun _ => none) =
      ⟨fruPath, fruInterface,
       [("SERVER_ID", GetServerId none), ("PRODUCT_MANUFACTURER", GetManufactuer)], []⟩ :=
  C2_no_eeprom_amended none (fun _ => none) (fun _ _ => rfl)

/-- C5: the scan consults the three candidate EEPROM paths in their fixed
priority order and decodes exactly the first one that opens, with no
hypothesis on (hence no dependence on) any later candidate; in particular,
when only the second candidate is openable the published fields are decoded
from the second. -/
theorem C5_first_openable_selected (sid : Option (List String))
    (openf : String → Option (List Nat)) (d : List Nat) :
    (openf "/sys/bus/i2c/devices/2-0055/eeprom" = some d →
      (AddFRUObjectToDbus sid openf).props =
        [("SERVER_ID", GetServerId sid), ("PRODUCT_MANUFACTURER", GetManufactuer)] ++
          decodeFields d)
    ∧ (openf "/sys/bus/i2c/devices/2-0055/eeprom" = none →
       openf "/sys/bus/i2c/devices/2-0054/eeprom" = some d →
      (AddFRUObjectToDbus sid openf).props =
        [("SERVER_ID", GetServerId sid), ("PRODUCT_MANUFACTURER", GetManufactuer)] ++
          decodeFields d)
    ∧ (openf "/sys/bus/i2c/devices/2-0055/eeprom" = none →
       openf "/sys/bus/i2c/devices/2-0054/eeprom" = none →
       openf "/sys/bus/i2c/devices/2-0050/eeprom" = some d →
      (AddFRUObjectToDbus sid openf).props =
        [("SERVER_ID", GetServerId sid), ("PRODUCT_MANUFACTURER", GetManufactuer)] ++
          decodeFields d) := by
  refine ⟨fun h1 => ?_, fun h1 h2 => ?_, fun h1 h2 h3 => ?_⟩
  · simp [AddFRUObjectToDbus, firstOpenable, eeproms, h1]
  · simp [AddFRUObjectToDbus, firstOpenable, eeproms, h1, h2]
  · simp [AddFRUObjectToDbus, firstOpenable, eeproms, h1, h2, h3]

/-- Witness for C5: only the second candidate opens (with bytes [1, 2]); the
published fields are decoded from it. -/
theorem C5_first_openable_selected_witness :
    (AddFRUObjectToDbus none
        (fun p => if p = "/sys/bus/i2c/devices/2-0054/eeprom" then some [1, 2] else none)).props =
      [("SERVER_ID", GetServerId none), ("PRODUCT_MANUFACTURER", GetManufactuer)] ++
        decodeFields [1, 2] :=
  (C5_first_openable_selected none
    (fun p => if p = "/sys/bus/i2c/devices/2-0054/eeprom" then some [1, 2] else none)
    [1, 2]).2.1 (by decide) (by decide)

/-- C9: the record decoder is a pure, deterministic function of the bytes it
reads: for any two runs whose candidate iteration selects identical byte
contents (whatever the server-id file holds), all six extracted fields — the
four ASCII strings and the two formatted MAC strings — are identical. -/
theorem C9_decoder_deterministic (sid1 sid2 : Option (List String))
    (openf1 openf2 : String → Option (List Nat))
    (h : firstOpenable openf1 eeproms = firstOpenable openf2 eeproms) :
    List.lookup "PRODUCT_PART_NUMBER" (AddFRUObjectToDbus sid1 openf1).props =
      List.lookup "PRODUCT_PART_NUMBER" (AddFRUObjectToDbus sid2 openf2).props
    ∧ List.lookup "PRODUCT_SERIAL_NUMBER" (AddFRUObjectToDbus sid1 openf1).props =
      List.lookup "PRODUCT_SERIAL_NUMBER" (AddFRUObjectToDbus sid2 openf2).props
    ∧ List.lookup "PCA_PART_NUMBER" (AddFRUObjectToDbus sid1 openf1).props =
      List.lookup "PCA_PART_NUMBER" (AddFRUObjectToDbus sid2 openf2).props
    ∧ List.lookup "PCA_SERIAL_NUMBER" (AddFRUObjectToDbus sid1 openf1).props =
      List.lookup "PCA_SERIAL_NUMBER" (AddFRUObjectToDbus sid2 openf2).props
    ∧ List.lookup "MAC0" (AddFRUObjectToDbus sid1 openf1).props =
      List.lookup "MAC0" (AddFRUObjectToDbus sid2 openf2).props
    ∧ List.lookup "MAC1" (AddFRUObjectToDbus sid1 openf1).props =
      List.lookup "MAC1" (AddFRUObjectToDbus sid2 openf2).props := by
  refine ⟨?_, ?_, ?_, ?_, ?_, ?_⟩ <;> simp [AddFRUObjectToDbus, List.lookup, h]

/-- Witness for C9: both runs select no EEPROM, with different server-id
files. -/
theorem C9_decoder_deterministic_witness :
    List.lookup "PRODUCT_PART_NUMBER" (AddFRUObjectToDbus (some ["A"]) (fun _ => none)).props =
      List.lookup "PRODUCT_PART_NUMBER" (AddFRUObjectToDbus none (fun _ => none)).props
    ∧ List.lookup "PRODUCT_SERIAL_NUMBER" (AddFRUObjectToDbus (some ["A"]) (fun _ => none)).props =
      List.lookup "PRODUCT_SERIAL_NUMBER" (AddFRUObjectToDbus none (fun _ => none)).props
    ∧ List.lookup "PCA_PART_NUMBER" (AddFRUObjectToDbus (some ["A"]) (fun _ => none)).props =
      List.lookup "PCA_PART_NUMBER" (AddFRUObjectToDbus none (fun _ => none)).props
    ∧ List.lookup "PCA_SERIAL_NUMBER" (AddFRUObjectToDbus (some ["A"]) (fun _ => none)).props =
      List.lookup "PCA_SERIAL_NUMBER" (AddFRUObjectToDbus none (fun _ => none)).props
    ∧ List.lookup "MAC0" (AddFRUObjectToDbus (some ["A"]) (fun _ => none)).props =
      List.lookup "MAC0" (AddFRUObjectToDbus none (fun _ => none)).props
    ∧ List.lookup "MAC1" (AddFRUObjectToDbus (some ["A"]) (fun _ => none)).props =
      List.lookup "MAC1" (AddFRUObjectToDbus none (fun _ => none)).props :=
  C9_decoder_deterministic (some ["A"]) none (fun _ => none) (fun _ => none) rfl

/-- C10: a failed read leaves the stream in a persistent error state, and on
a failed stream every later ASCII extraction returns "Unknown" and every
later MAC extraction renders "00:00:00:00:00:00"; field values therefore
depend on the fixed extraction order (part number, serial number, PCA part
number, PCA serial number, MAC0, MAC1), demonstrated concretely on a 130-byte
all-'A' source: the PCA part number (read past end-of-data) is partially
zero-padded, and every field after it is a sentinel. -/
theorem C10_error_state_propagates :
    (∀ (fin : IfStream) (off sz : Nat), fin.failed = true → GetStr fin off sz = (unknown, fin))
    ∧ (∀ (fin : IfStream) (off : Nat), fin.failed = true →
        GetMACAddress fin off = ("00:00:00:00:00:00", fin))
    ∧ (∀ (fin : IfStream) (off sz : Nat), fin.failed = false → 0 < sz →
        fin.data.length < off + sz → ((GetStr fin off sz).2).failed = true)
    ∧ decodeFields (List.replicate 130 65) =
        [("PRODUCT_PART_NUMBER", String.mk (List.replicate 16 'A')),
         ("PRODUCT_SERIAL_NUMBER", String.mk (List.replicate 16 'A')),
         ("PCA_PART_NUMBER", String.mk (List.replicate 16 (Char.ofNat 0))),
         ("PCA_SERIAL_NUMBER", unknown),
         ("MAC0", "00:00:00:00:00:00"),
         ("MAC1", "00:00:00:00:00:00")] := by
  refine ⟨GetStr_failed, GetMACAddress_failed, ?_, by decide⟩
  intro fin off sz h0 hsz hlen
  have hc : min sz (fin.data.length - off) < sz := by omega
  simp [GetStr, h0, hc]

/-- Witness for C10: a failed stream yields "Unknown" and the zero MAC, and a
short read on a good stream sets the error flag. -/
theorem C10_error_state_propagates_witness :
    GetStr ⟨[65], 0, true⟩ 0 16 = (unknown, ⟨[65], 0, true⟩)
    ∧ GetMACAddress ⟨[65], 0, true⟩ 132 = ("00:00:00:00:00:00", ⟨[65], 0, true⟩)
    ∧ ((GetStr ⟨[65], 0, false⟩ 0 16).2).failed = true :=
  ⟨C10_error_state_propagates.1 ⟨[65], 0, true⟩ 0 16 rfl,
   C10_error_state_propagates.2.1 ⟨[65], 0, true⟩ 132 rfl,
   C10_error_state_propagates.2.2.1 ⟨[65], 0, false⟩ 0 16 rfl (by decide) (by decide)⟩

/-- C1 counterexample: a 166-byte all-'A' source meets the claim's "at least
166 bytes" bound, yet the decoded PCA serial number is the sentinel
"Unknown", not the verbatim 16 bytes of its range [144, 160): the PCA part
number read at offset 160 (size 16, requiring 176 bytes) fails first and
poisons the stream. -/
theorem C1_counterexample :
    166 ≤ (List.replicate 166 65 : List Nat).length
    ∧ List.lookup "PCA_SERIAL_NUMBER" (decodeFields (List.replicate 166 65)) = some unknown
    ∧ fieldStr (List.replicate 166 65) PcaSerialNumberOffset PcaSerialNumberSize =
        String.mk (List.replicate 16 'A')
    ∧ unknown ≠ String.mk (List.replicate 16 'A') := by
  refine ⟨by decide, by decide, by decide, by decide⟩

/-- C1 amended: for every byte source of at least 176 bytes (176 = 160 + 16,
the end of the furthest field, rather than the claimed 166), the decoder
extracts each of the six EEPROM fields as exactly the byte range of the
layout table — Serial Number (1, 16), Part Number (109, 16), PCA Serial
Number (144, 16), PCA Part Number (160, 16), MAC0 (132, 6), MAC1 (138, 6) —
and each raw-ASCII field is the verbatim bytes of its range, of length
exactly 16, with no trimming of NUL or padding bytes. -/
theorem C1_layout_amended (data : List Nat) (h : 176 ≤ data.length) :
    decodeFields data =
      [("PRODUCT_PART_NUMBER", fieldStr data PartNumberOffset PartNumberSize),
       ("PRODUCT_SERIAL_NUMBER", fieldStr data SerialNumberOffset SerialNumberSize),
       ("PCA_PART_NUMBER", fieldStr data PcaPartNumberOffset PcaPartNumberSize),
       ("PCA_SERIAL_NUMBER", fieldStr data PcaSerialNumberOffset PcaSerialNumberSize),
       ("MAC0", macFormat (fieldBytes data MAC0AddressOffset MACAddressSize)),
       ("MAC1", macFormat (fieldBytes data MAC1AddressOffset MACAddressSize))]
    ∧ (∀ off sz, off + sz ≤ data.length → (fieldStr data off sz).length = sz) := by
  constructor
  · have e1 := GetStr_ok data 0 PartNumberOffset PartNumberSize
      (by simp only [PartNumberOffset, PartNumberSize]; omega)
    have e2 := GetStr_ok data (PartNumberOffset + PartNumberSize) SerialNumberOffset
      SerialNumberSize (by simp only [SerialNumberOffset, SerialNumberSize]; omega)
    have e3 := GetStr_ok data (SerialNumberOffset + SerialNumberSize) PcaPartNumberOffset
      PcaPartNumberSize (by simp only [PcaPartNumberOffset, PcaPartNumberSize]; omega)
    have e4 := GetStr_ok data (PcaPartNumberOffset + PcaPartNumberSize) PcaSerialNumberOffset
      PcaSerialNumberSize (by simp only [PcaSerialNumberOffset, PcaSerialNumberSize]; omega)
    have e5 := GetMACAddress_ok data (PcaSerialNumberOffset + PcaSerialNumberSize)
      MAC0AddressOffset (by simp only [MAC0AddressOffset]; omega)
    have e6 := GetMACAddress_ok data (MAC0AddressOffset + 6) MAC1AddressOffset
      (by simp only [MAC1AddressOffset]; omega)
    simp only [decodeFields, e1, e2, e3, e4, e5, e6, MACAddressSize]
  · intro off sz hsz
    show (List.map Char.ofNat _).length = sz
    simp only [List.length_map, fieldBytes, List.length_take, List.length_drop]
    omega

/-- Witness for C1 amended at the 176-byte source 0, 1, ..., 175. -/
theorem C1_layout_amended_witness :
    decodeFields (List.range 176) =
      [("PRODUCT_PART_NUMBER", fieldStr (List.range 176) PartNumberOffset PartNumberSize),
       ("PRODUCT_SERIAL_NUMBER", fieldStr (List.range 176) SerialNumberOffset SerialNumberSize),
       ("PCA_PART_NUMBER", fieldStr (List.range 176) PcaPartNumberOffset PcaPartNumberSize),
       ("PCA_SERIAL_NUMBER", fieldStr (List.range 176) PcaSerialNumberOffset
          PcaSerialNumberSize),
       ("MAC0", macFormat (fieldBytes (List.range 176) MAC0AddressOffset MACAddressSize)),
       ("MAC1", macFormat (fieldBytes (List.range 176) MAC1AddressOffset MACAddressSize))]
    ∧ (∀ off sz, off + sz ≤ (List.range 176).length → (fieldStr (List.range 176) off sz).length = sz) :=
  C1_layout_amended (List.range 176) (by decide)

/-- C7: decoding totalizes on every byte source, however short: each field
extraction reads only the available bytes into a zero-initialized buffer, so
the decoder always produces the complete six-field record, each field holding
a defined string — a full 16-character ASCII field, the "Unknown" sentinel,
or a 17-character MAC rendering. -/
theorem C7_decode_total (data : List Nat) (hb : ∀ b ∈ data, b < 256) :
    (decodeFields data).map Prod.fst =
      ["PRODUCT_PART_NUMBER", "PRODUCT_SERIAL_NUMBER", "PCA_PART_NUMBER",
       "PCA_SERIAL_NUMBER", "MAC0", "MAC1"]
    ∧ (∀ p ∈ decodeFields data, p.2 = unknown ∨ p.2.length = 16 ∨ p.2.length = 17) := by
  constructor
  · simp [decodeFields]
  · intro p hp
    simp only [decodeFields, List.mem_cons, List.not_mem_nil, or_false] at hp
    have hdata : ∀ (fin : IfStream), fin.data = data → ∀ b ∈ fin.data, b < 256 := by
      intro fin hf
      rw [hf]
      exact hb
    rcases hp with rfl | rfl | rfl | rfl | rfl | rfl
    · rcases GetStr_val _ PartNumberOffset PartNumberSize with h | h
      · left; exact h
      · right; left; exact h
    · rcases GetStr_val _ SerialNumberOffset SerialNumberSize with h | h
      · left; exact h
      · right; left; exact h
    · rcases GetStr_val _ PcaPartNumberOffset PcaPartNumberSize with h | h
      · left; exact h
      · right; left; exact h
    · rcases GetStr_val _ PcaSerialNumberOffset PcaSerialNumberSize with h | h
      · left; exact h
      · right; left; exact h
    · right; right
      apply GetMACAddress_val
      apply hdata
      simp only [GetStr_snd_data]
    · right; right
      apply GetMACAddress_val
      apply hdata
      simp only [GetMACAddress_snd_data, GetStr_snd_data]

/-- Witness for C7 on a 3-byte source, far shorter than every field range. -/
theorem C7_decode_total_witness :
    (decodeFields [1, 2, 3]).map Prod.fst =
      ["PRODUCT_PART_NUMBER", "PRODUCT_SERIAL_NUMBER", "PCA_PART_NUMBER",
       "PCA_SERIAL_NUMBER", "MAC0", "MAC1"]
    ∧ (∀ p ∈ decodeFields [1, 2, 3], p.2 = unknown ∨ p.2.length = 16 ∨ p.2.length = 17) :=
  C7_decode_total [1, 2, 3] (by decide)

/-- C3: `rescanBus` in the Published state (precondition: the published
reference is on the bus, at the FRU path, and is the only object there)
first removes the current FRU object — the intermediate state holds zero FRU
objects, so at most one exists at every point — and then publishes a fresh
one, leaving exactly one FRU object at the fixed path, which re-establishes
the precondition for the next call; in the Unpublished state (reference
null, zero FRU objects) it removes nothing and is exactly a scan. -/
theorem C3_rescan_lifecycle (bus : List DbusObject) (iface : Option DbusObject)
    (sid : Option (List String)) (openf : String → Option (List Nat))
    (hpre : match iface with
            | none => countFru bus = 0
            | some o => o ∈ bus ∧ o.path = fruPath ∧ countFru bus = 1) :
    countFru (rescanMid bus iface) = 0
    ∧ countFru (rescanBus bus iface sid openf).1 = 1
    ∧ (rescanBus bus iface sid openf).2 ∈ (rescanBus bus iface sid openf).1
    ∧ (rescanBus bus iface sid openf).2.path = fruPath
    ∧ (rescanBus bus iface sid openf).2 = AddFRUObjectToDbus sid openf
    ∧ rescanBus bus none sid openf =
        (bus ++ [AddFRUObjectToDbus sid openf], AddFRUObjectToDbus sid openf) := by
  have hnew : (fun o => o.path == fruPath) (AddFRUObjectToDbus sid openf) = true := by
    simp [AddFRUObjectToDbus, fruPath]
  have hmid : countFru (rescanMid bus iface) = 0 := by
    cases iface with
    | none => exact hpre
    | some o =>
      obtain ⟨hmem, hpath, hcount⟩ := hpre
      have hpo : (fun x => x.path == fruPath) o = true := by simp [hpath]
      have := filter_length_erase (fun x => x.path == fruPath) o hpo bus hmem
      simp only [rescanMid, countFru] at *
      omega
  refine ⟨hmid, ?_, ?_, rfl, rfl, rfl⟩
  · simp only [rescanBus, countFru, List.filter_append]
    simp only [countFru] at hmid
    simp [List.length_append, hmid, hnew]
  · simp [rescanBus]

/-- Witness for C3: a bus holding the manager object and one published FRU
object; the rescan removes it (zero FRU objects mid-operation) and
republishes exactly one. -/
theorem C3_rescan_lifecycle_witness :
    countFru (rescanMid [managerObj, AddFRUObjectToDbus none (fun _ => none)]
        (some (AddFRUObjectToDbus none (fun _ => none)))) = 0
    ∧ countFru (rescanBus [managerObj, AddFRUObjectToDbus none (fun _ => none)]
        (some (AddFRUObjectToDbus none (fun _ => none))) none (fun _ => none)).1 = 1
    ∧ (rescanBus [managerObj, AddFRUObjectToDbus none (fun _ => none)]
        (some (AddFRUObjectToDbus none (fun _ => none))) none (fun _ => none)).2 ∈
      (rescanBus [managerObj, AddFRUObjectToDbus none (fun _ => none)]
        (some (AddFRUObjectToDbus none (fun _ => none))) none (fun _ => none)).1
    ∧ (rescanBus [managerObj, AddFRUObjectToDbus none (fun _ => none)]
        (some (AddFRUObjectToDbus none (fun _ => none))) none (fun _ => none)).2.path = fruPath
    ∧ (rescanBus [managerObj, AddFRUObjectToDbus none (fun _ => none)]
        (some (AddFRUObjectToDbus none (fun _ => none))) none (fun _ => none)).2 =
      AddFRUObjectToDbus none (fun _ => none)
    ∧ rescanBus [managerObj, AddFRUObjectToDbus none (fun _ => none)] none none
        (fun _ => none) =
      ([managerObj, AddFRUObjectToDbus none (fun _ => none)] ++
        [AddFRUObjectToDbus none (fun _ => none)], AddFRUObjectToDbus none (fun _ => none)) :=
  C3_rescan_lifecycle [managerObj, AddFRUObjectToDbus none (fun _ => none)]
    (some (AddFRUObjectToDbus none (fun _ => none))) none (fun _ => none)
    ⟨by decide, rfl, by decide⟩

/-- C8: the manager object at the fixed manager path, with its registered
`ReScan` method, is created once at startup and is neither removed nor
modified by any number of rescan invocations (each of which erases and
recreates only the FRU device object): after the startup scan and any `n`
further `ReScan` calls, the objects at the manager path are exactly the one
original manager object. -/
theorem C8_manager_untouched (sids : Nat → Option (List String))
    (openfs : Nat → String → Option (List Nat)) (n : Nat) :
    (afterRescans sids openfs n).1.filter (fun o => o.path == managerPath) = [managerObj]
    ∧ managerObj.methods = ["ReScan"] := by
  refine ⟨?_, rfl⟩
  induction n with
  | zero =>
    show List.filter (fun o => o.path == managerPath) [managerObj] = [managerObj]
    decide
  | succ k ih =>
    have hstep : (afterRescans sids openfs (k + 1)).1 =
        rescanMid (afterRescans sids openfs k).1 (afterRescans sids openfs k).2 ++
          [AddFRUObjectToDbus (sids k) (openfs k)] := rfl
    rw [hstep, List.filter_append]
    have hfru : (fun o => o.path == managerPath) (AddFRUObjectToDbus (sids k) (openfs k)) =
        false := by
      simp [AddFRUObjectToDbus, fruPath, managerPath]
    have hmidf : (rescanMid (afterRescans sids openfs k).1
        (afterRescans sids openfs k).2).filter (fun o => o.path == managerPath) =
        ((afterRescans sids openfs k).1).filter (fun o => o.path == managerPath) := by
      cases hif : (afterRescans sids openfs k).2 with
      | none => simp [rescanMid]
      | some o =>
        have hop : o.path = fruPath := afterRescans_path sids openfs k o hif
        have hno : (fun x => x.path == managerPath) o = false := by
          simp [hop, fruPath, managerPath]
        simp only [rescanMid]
        exact filter_erase_not _ o hno _
    rw [hmidf, ih]
    simp [List.filter_cons, hfru]
